import Mathlib

/-!
Verification of the job-tracker email classification pipeline.

The definitions below are a shallow embedding of the Python sources:
  src/deduplication.py  (text normalizer, stage-merge engine)
  src/pre_filter.py     (heuristic pre-filter)
  src/rule_extractor.py (rule-based stage resolution)
  src/ai_parser.py      (AI-response validation, quota gate)
  src/main.py           (per-email pipeline orchestration of run_sync)

Python string semantics are reproduced for the ASCII inputs the tables
and claims use: str.lower / str.strip / str.split / str.title, the
substring operator (x in y), and the specific regular expressions the
code uses (legal-suffix stripping in deduplication.py and the
email-domain scan).  All machine arithmetic here is exact (Nat / Rat),
matching the Python code, which only compares small ints and the float
thresholds 0.75 and 0.70 on values that are exactly representable in
the rationals we use.
-/

/-- A single apostrophe character, used to reproduce the literal
rejection-reason strings of pre_filter.py. -/
def apos : String := String.mk [Char.ofNat 39]

/-- Python str.isspace set for ASCII, i.e. the characters matched by
the regex class backslash-s: space, tab, newline, carriage return,
vertical tab, form feed. -/
def isPySpace (c : Char) : Bool :=
  c = ' ' || c = '\t' || c = '\n' || c = '\r' || c = Char.ofNat 11 || c = Char.ofNat 12

/-- ASCII word character, the regex class backslash-w: letters, digits,
underscore. -/
def isWordChar (c : Char) : Bool :=
  c.isAlphanum || c = '_'

/-- Python str.lower for ASCII strings. -/
def strLower (s : String) : String :=
  String.mk (s.toList.map Char.toLower)

/-- Drop trailing characters satisfying p. -/
def dropTrailWhile (p : Char → Bool) (cs : List Char) : List Char :=
  (cs.reverse.dropWhile p).reverse

/-- Python str.strip() on a character list. -/
def pyStripList (cs : List Char) : List Char :=
  dropTrailWhile isPySpace (cs.dropWhile isPySpace)

/-- Python str.strip() for ASCII strings. -/
def pyStrip (s : String) : String :=
  String.mk (pyStripList s.toList)

/-- Python str.strip(chars) with an explicit character set. -/
def pyStripChars (chars : List Char) (s : String) : String :=
  String.mk (dropTrailWhile (chars.contains ·) (s.toList.dropWhile (chars.contains ·)))

/-- The Python substring test (needle in hay) on character lists. -/
def listContainsSub (hay needle : List Char) : Bool :=
  match hay with
  | [] => needle.isEmpty
  | _ :: t => needle.isPrefixOf hay || listContainsSub t needle

/-- The Python substring test (needle in hay) on strings. -/
def strContains (hay needle : String) : Bool :=
  listContainsSub hay.toList needle.toList

/-- Python str.split() with no argument: split on whitespace runs,
dropping empty pieces. -/
def pySplitGo (cur : List Char) (cs : List Char) : List String :=
  match cs with
  | [] => if cur.isEmpty then [] else [String.mk cur.reverse]
  | c :: t =>
    if isPySpace c then
      if cur.isEmpty then pySplitGo [] t
      else String.mk cur.reverse :: pySplitGo [] t
    else pySplitGo (c :: cur) t

/-- Python str.split() for ASCII strings. -/
def pySplit (s : String) : List String :=
  pySplitGo [] s.toList

/-- One pass of re.sub(r"\s+", " ", s): every maximal whitespace run
becomes a single space.  The boolean records whether the previous
character was whitespace. -/
def collapseWsGo (inRun : Bool) (cs : List Char) : List Char :=
  match cs with
  | [] => []
  | c :: t =>
    if isPySpace c then
      if inRun then collapseWsGo true t else ' ' :: collapseWsGo true t
    else c :: collapseWsGo false t

/-- re.sub(r"\s+", " ", s).strip() as used by normalize_company. -/
def collapseWs (cs : List Char) : List Char :=
  pyStripList (collapseWsGo false cs)

/-- Python str.title() for ASCII: a letter is uppercased when the
previous character is not a letter, lowercased otherwise; other
characters are unchanged. -/
def pyTitleGo (prevAlpha : Bool) (cs : List Char) : List Char :=
  match cs with
  | [] => []
  | c :: t =>
    (if c.isAlpha then (if prevAlpha then c.toLower else c.toUpper) else c)
      :: pyTitleGo c.isAlpha t

/-- Python str.title() on a character list. -/
def pyTitle (cs : List Char) : List Char :=
  pyTitleGo false cs

/-!
## deduplication.py - legal-suffix stripping

LEGAL_SUFFIXES (deduplication.py lines 7-20) is a list of regexes all
of one shape: one-or-more whitespace, a case-insensitive literal, for
some patterns an optional dot, then a word boundary.  re.sub removes
every non-overlapping match, scanning left to right.
-/

/-- One legal-suffix regex: the literal characters (dots in L.L.C are
literal) and whether the pattern ends in an optional dot before the
word boundary. -/
structure SuffixPat where
  lit : List Char
  optDot : Bool
deriving DecidableEq

/-- Case-insensitive literal prefix test. -/
def prefixCI : List Char → List Char → Bool
  | [], _ => true
  | _ :: _, [] => false
  | p :: ps, c :: cs => p.toLower = c.toLower && prefixCI ps cs

/-- Length of the match of one suffix pattern anchored at the head of
cs, if any: maximal whitespace run (at least one character), the
literal case-insensitively, a greedy optional dot where the pattern
has one, then the word boundary.  With the dot taken the boundary
needs a following word character; without it the boundary needs end of
input or a non-word character (the literal always ends in a word
character). -/
def matchLenAt (pat : SuffixPat) (cs : List Char) : Option Nat :=
  let w := (cs.takeWhile isPySpace).length
  if w = 0 then none
  else
    let rest := cs.drop w
    if prefixCI pat.lit rest then
      let rest2 := rest.drop pat.lit.length
      match rest2 with
      | [] => some (w + pat.lit.length)
      | c :: cs2 =>
        if pat.optDot && c = '.' && (match cs2 with | [] => false | d :: _ => isWordChar d) then
          some (w + pat.lit.length + 1)
        else if isWordChar c then none
        else some (w + pat.lit.length)
    else none

/-- re.sub(pattern, "", s) for one suffix pattern: scan left to right,
delete each match, continue after it.  The fuel argument only serves
termination; it is always at least the remaining length plus one, and
every step consumes at least one character. -/
def subPatGo (pat : SuffixPat) : Nat → List Char → List Char
  | 0, _ => []
  | _ + 1, [] => []
  | fuel + 1, c :: t =>
    match matchLenAt pat (c :: t) with
    | some m => subPatGo pat fuel ((c :: t).drop m)
    | none => c :: subPatGo pat fuel t

/-- Remove every match of one legal-suffix pattern. -/
def subPat (pat : SuffixPat) (cs : List Char) : List Char :=
  subPatGo pat (cs.length + 1) cs

/-- LEGAL_SUFFIXES, deduplication.py lines 7-20, in source order. -/
def LEGAL_SUFFIXES : List SuffixPat :=
  [⟨"LLC".toList, false⟩,
   ⟨"Inc".toList, true⟩,
   ⟨"Corp".toList, true⟩,
   ⟨"Ltd".toList, true⟩,
   ⟨"Co".toList, true⟩,
   ⟨"L.L.C".toList, true⟩,
   ⟨"Incorporated".toList, false⟩,
   ⟨"Corporation".toList, false⟩,
   ⟨"Limited".toList, false⟩,
   ⟨"PLC".toList, false⟩,
   ⟨"LLP".toList, false⟩,
   ⟨"LP".toList, false⟩]

/-- COMPANY_ALIASES, deduplication.py lines 23-43 (lower-cased key to
display name). -/
def COMPANY_ALIASES : List (String × String) :=
  [("google", "Google"),
   ("meta platforms", "Meta"),
   ("meta", "Meta"),
   ("amazon.com services", "Amazon"),
   ("amazon", "Amazon"),
   ("amazon web services", "AWS"),
   ("aws", "AWS"),
   ("microsoft corporation", "Microsoft"),
   ("microsoft", "Microsoft"),
   ("apple inc", "Apple"),
   ("apple", "Apple"),
   ("alphabet", "Google"),
   ("jpmorgan chase", "JPMorgan"),
   ("j.p. morgan", "JPMorgan"),
   ("jpmorgan", "JPMorgan"),
   ("goldman sachs & co", "Goldman Sachs"),
   ("goldman sachs", "Goldman Sachs"),
   ("international business machines", "IBM"),
   ("ibm", "IBM")]

/-- normalize_company, deduplication.py lines 98-105: strip, remove
every legal suffix pattern in order, collapse whitespace, then alias
lookup on the lower-cased key, falling back to title case (empty input
gives the empty string). -/
def normalize_company (raw : String) : String :=
  let s0 := pyStripList raw.toList
  let s1 := LEGAL_SUFFIXES.foldl (fun acc pat => subPat pat acc) s0
  let s2 := collapseWs s1
  let key := String.mk (s2.map Char.toLower)
  match COMPANY_ALIASES.lookup key with
  | some display => display
  | none => if s2.isEmpty then "" else String.mk (pyTitle s2)

/-- normalize_company_for_match, deduplication.py lines 108-111. -/
def normalize_company_for_match (raw : String) : String :=
  pyStrip (strLower (normalize_company raw))

/-- ROLE_NOISE, deduplication.py lines 46-70. -/
def ROLE_NOISE : List String :=
  ["intern", "internship", "co-op", "coop", "full-time", "part-time",
   "fulltime", "parttime", "remote", "hybrid", "contract", "contractor",
   "i", "ii", "iii", "sr", "jr", "senior", "junior", "associate",
   "lead", "staff", "principal"]

/-- ROLE_EQUIVALENTS, deduplication.py lines 73-83 (head of each group
is canonical). -/
def ROLE_EQUIVALENTS : List (String × List String) :=
  [("software engineer", ["software developer", "swe", "software engineering"]),
   ("software engineering intern", ["software developer intern", "swe intern"]),
   ("product management intern", ["product manager intern", "pm intern"]),
   ("data science intern", ["data scientist intern"]),
   ("machine learning", ["ml"]),
   ("artificial intelligence", ["ai"]),
   ("full stack", ["fullstack", "full-stack"]),
   ("front end", ["frontend", "front-end"]),
   ("back end", ["backend", "back-end"])]

/-- normalize_role_for_match, deduplication.py lines 114-128: lower
and strip, drop noise tokens, rejoin with single spaces, then fold
each equivalence group whose variants contain or are contained in the
current string to the group head (the groups are applied in order to
the running value of s). -/
def normalize_role_for_match (raw : String) : String :=
  let s0 := pyStrip (strLower raw)
  let words := (pySplit s0).filter (fun w => !(ROLE_NOISE.contains w))
  let s1 := String.intercalate " " words
  ROLE_EQUIVALENTS.foldl
    (fun s group =>
      if group.2.any (fun v => strContains s v || strContains v s) then group.1 else s)
    s1

/-- role_token_overlap, deduplication.py lines 131-139: Jaccard
similarity of the token sets of the two normalized role strings, zero
when either side is empty.  mkRat produces exactly the rational
quotient intersection / union that the Python float division computes
(both counts are tiny, so the float is exact). -/
def role_token_overlap (a b : String) : ℚ :=
  let tokensA := (pySplit (normalize_role_for_match a)).eraseDups
  let tokensB := (pySplit (normalize_role_for_match b)).eraseDups
  if tokensA.isEmpty || tokensB.isEmpty then 0
  else
    let inter := (tokensA.filter (fun t => tokensB.contains t)).length
    let union := ((tokensA ++ tokensB).eraseDups).length
    if union = 0 then 0 else mkRat inter union

/-- The 0.75 role-overlap threshold of find_matching_application
(deduplication.py line 182), as the exact rational three quarters. -/
def ROLE_MATCH_THRESHOLD : ℚ := ⟨3, 4, by decide, by decide⟩

/-- STAGE_PRIORITY, deduplication.py lines 85-95. -/
def STAGE_PRIORITY : List (String × Nat) :=
  [("Applied", 1), ("In Review", 2), ("OA/Assessment", 3), ("Phone Screen", 4),
   ("Interview Scheduled", 5), ("Interviewed", 6), ("Offer", 7),
   ("Rejected", 8), ("Withdrawn", 9)]

/-- STAGE_PRIORITY.get(stage, 0). -/
def stage_priority (stage : String) : Nat :=
  (STAGE_PRIORITY.lookup stage).getD 0

/-- should_upgrade_stage, deduplication.py lines 142-156: terminal
incoming stages always apply; otherwise an Offer is only overwritten
by Withdrawn; otherwise apply exactly when the incoming priority
strictly exceeds the current one. -/
def should_upgrade_stage (current incoming : String) : Bool :=
  if incoming == "Rejected" || incoming == "Withdrawn" then true
  else if current == "Offer" && incoming != "Withdrawn" then false
  else stage_priority current < stage_priority incoming

/-- A tracked-application row as the merge engine sees it (the company,
role, stage and notes keys of the dicts in existing_apps). -/
structure AppRow where
  company : String
  role : String
  stage : String
  notes : String
deriving DecidableEq

/-- find_matching_application, deduplication.py lines 159-185: first
existing application whose normalized company key is exactly equal and
whose role key is exactly equal or has token overlap at least 0.75. -/
def find_matching_application (company role : String) (existingApps : List AppRow) :
    Option AppRow :=
  let companyNorm := normalize_company_for_match company
  let roleNorm := normalize_role_for_match role
  existingApps.find? (fun app =>
    companyNorm == normalize_company_for_match app.company &&
      (roleNorm == normalize_role_for_match app.role ||
        ROLE_MATCH_THRESHOLD ≤ role_token_overlap role app.role))

/-- The nine stages of the tracker, in priority order. -/
inductive Stage
  | applied
  | inReview
  | oaAssessment
  | phoneScreen
  | interviewScheduled
  | interviewed
  | offer
  | rejected
  | withdrawn
deriving DecidableEq, Fintype

/-- The string each stage is written as throughout the code. -/
def Stage.name : Stage → String
  | .applied => "Applied"
  | .inReview => "In Review"
  | .oaAssessment => "OA/Assessment"
  | .phoneScreen => "Phone Screen"
  | .interviewScheduled => "Interview Scheduled"
  | .interviewed => "Interviewed"
  | .offer => "Offer"
  | .rejected => "Rejected"
  | .withdrawn => "Withdrawn"

/-- A stage that is not one of the two absorbing terminal states. -/
def Stage.nonTerminal : Stage → Bool
  | .rejected => false
  | .withdrawn => false
  | _ => true

/-!
## pre_filter.py
-/

/-- HARD_REJECT_SUBJECTS, pre_filter.py lines 11-30. -/
def HARD_REJECT_SUBJECTS : List String :=
  ["job alert", "jobs you might like", "recommended jobs", "new jobs matching",
   "people are applying", "jobs near you", "top job picks", "weekly digest",
   "newsletter", "salary insights", "viewed your profile", "connection request",
   "grow your network", "who" ++ apos ++ "s hiring", "jobs based on your profile",
   "open to work", "x people applied", "see who" ++ apos ++ "s hiring"]

/-- MUST_PASS_SUBJECTS, pre_filter.py lines 33-61. -/
def MUST_PASS_SUBJECTS : List String :=
  ["application", "applied", "interview", "offer", "internship", "position",
   "role", "hiring", "candidate", "recruiting", "assessment", "screening",
   "unfortunately", "next steps", "moving forward", "thank you for applying",
   "we received", "application update", "your application",
   "application confirmation", "job offer", "pleased to", "decision",
   "consideration", "move forward", "background check", "onboarding"]

/-- ATS_DOMAINS, pre_filter.py lines 64-81. -/
def ATS_DOMAINS : List String :=
  ["greenhouse.io", "lever.co", "workday.com", "myworkdayjobs.com",
   "ashbyhq.com", "smartrecruiters.com", "jobvite.com", "icims.com",
   "taleo.net", "successfactors.com", "brassring.com", "jazz.co",
   "recruitee.com", "bamboohr.com", "rippling.com", "dover.com"]

/-- PERSONAL_DOMAINS, pre_filter.py lines 84-93. -/
def PERSONAL_DOMAINS : List String :=
  ["gmail.com", "yahoo.com", "hotmail.com", "outlook.com", "icloud.com",
   "aol.com", "protonmail.com", "live.com"]

/-- JOB_BOARD_BLAST_RULES, pre_filter.py lines 96-100. -/
def JOB_BOARD_BLAST_RULES : List (String × List String) :=
  [("linkedin.com", ["alert", "recommendation", "digest", "jobs", "people",
                     "network", "profile"]),
   ("indeed.com", ["alert", "matches", "digest"]),
   ("glassdoor.com", ["alert", "matches"])]

/-- ALWAYS_REJECT_DOMAINS, pre_filter.py lines 103-107. -/
def ALWAYS_REJECT_DOMAINS : List String :=
  ["ziprecruiter.com", "dice.com", "monster.com"]

/-- Character class of the domain group in the regex
at-sign followed by one or more word, dot or hyphen characters. -/
def isDomainChar (c : Char) : Bool :=
  isWordChar c || c = '.' || c = '-'

/-- The scan of re.search for that regex: the first at-sign followed by
at least one domain character wins, and the match is the maximal run. -/
def extractDomainGo : List Char → List Char
  | [] => []
  | c :: t =>
    if c = '@' && !(t.takeWhile isDomainChar).isEmpty then t.takeWhile isDomainChar
    else extractDomainGo t

/-- extract_domain, pre_filter.py lines 110-113 (the result is
lower-cased by the code). -/
def extract_domain (emailAddr : String) : String :=
  strLower (String.mk (extractDomainGo emailAddr.toList))

/-- A candidate email as pre_filter and run_sync see it: the id,
subject, from, date and body keys of the email dict. -/
structure EmailMsg where
  id : String
  subject : String
  fromAddr : String
  date : String
  body : String
deriving DecidableEq

/-- The lower-cased subject pre_filter works on. -/
def pfSubject (e : EmailMsg) : String := strLower e.subject

/-- The sender domain pre_filter works on (from lower-cased address). -/
def pfDomain (e : EmailMsg) : String := extract_domain (strLower e.fromAddr)

/-- The first hard-reject phrase contained in the subject, if any
(pre_filter.py lines 132-136). -/
def hardRejectHit (e : EmailMsg) : Option String :=
  HARD_REJECT_SUBJECTS.find? (fun p => strContains (pfSubject e) p)

/-- The first job-board blast rule that fires: a rule domain contained
in the sender domain together with the first of its phrases contained
in the subject (pre_filter.py lines 151-157). -/
def blastHit (e : EmailMsg) : Option String :=
  JOB_BOARD_BLAST_RULES.findSome? (fun rule =>
    if strContains (pfDomain e) rule.1 then
      rule.2.find? (fun p => strContains (pfSubject e) p)
    else none)

/-- Subject contains at least one must-pass phrase
(pre_filter.py line 160). -/
def subject_passes (e : EmailMsg) : Bool :=
  MUST_PASS_SUBJECTS.any (fun p => strContains (pfSubject e) p)

/-- Sender domain contains a known ATS domain (pre_filter.py line 163). -/
def domain_is_ats (e : EmailMsg) : Bool :=
  ATS_DOMAINS.any (fun a => strContains (pfDomain e) a)

/-- pre_filter, pre_filter.py lines 122-170: none means pass, some
reason means reject.  The checks run in source order: hard-reject
subject phrases, personal sender domains, always-reject job boards,
job-board blast rules, then the must-pass keyword / ATS-domain gate. -/
def pre_filter (e : EmailMsg) : Option String :=
  match hardRejectHit e with
  | some p => some ("subject contains " ++ apos ++ p ++ apos)
  | none =>
    if PERSONAL_DOMAINS.contains (pfDomain e) then
      some ("sender domain is personal: " ++ pfDomain e)
    else if ALWAYS_REJECT_DOMAINS.contains (pfDomain e) then
      some ("sender is job board blast: " ++ pfDomain e)
    else
      match blastHit e with
      | some p =>
        some ("from " ++ pfDomain e ++ " and subject contains " ++ apos ++ p ++ apos
          ++ " (job board blast)")
      | none =>
        if !subject_passes e && !domain_is_ats e then
          some "subject does not contain application-related keywords and sender is not known ATS"
        else none

/-!
## rule_extractor.py - stage resolution
-/

/-- The rejection keyword bucket of _stage_from_text
(rule_extractor.py lines 151-152). -/
def STAGE_REJ_PHRASES : List String :=
  ["unfortunately", "not selected", "not moving forward", "declined",
   "we" ++ apos ++ "ve decided", "other candidates", "position filled",
   "pursue other", "not be considered"]

/-- The offer keyword bucket (rule_extractor.py line 155). -/
def STAGE_OFFER_PHRASES : List String :=
  ["offer", "pleased to offer", "we" ++ apos ++ "d like to extend"]

/-- The interview keyword bucket (rule_extractor.py line 157). -/
def STAGE_INTERVIEW_PHRASES : List String :=
  ["interview", "phone screen", "onsite", "technical interview",
   "schedule a call", "video call"]

/-- The assessment keyword bucket (rule_extractor.py line 159). -/
def STAGE_ASSESSMENT_PHRASES : List String :=
  ["assessment", "coding challenge", "online test", "codesignal", "hackerrank"]

/-- The application-received keyword bucket (rule_extractor.py line 161). -/
def STAGE_APPLIED_PHRASES : List String :=
  ["application received", "we received your", "thank you for applying",
   "submitted successfully"]

/-- _stage_from_text, rule_extractor.py lines 148-163: the five keyword
buckets are evaluated in fixed priority order on the lower-cased text;
the default is Applied. -/
def stage_from_text (text : String) : String :=
  if STAGE_REJ_PHRASES.any (fun p => strContains (strLower text) p) then "Rejected"
  else if STAGE_OFFER_PHRASES.any (fun p => strContains (strLower text) p) then "Offer"
  else if STAGE_INTERVIEW_PHRASES.any (fun p => strContains (strLower text) p) then
    "Interview Scheduled"
  else if STAGE_ASSESSMENT_PHRASES.any (fun p => strContains (strLower text) p) then
    "OA/Assessment"
  else if STAGE_APPLIED_PHRASES.any (fun p => strContains (strLower text) p) then
    "Applied"
  else "Applied"

/-!
## ai_parser.py
-/

/-- VALID_STAGES, ai_parser.py lines 73-76. -/
def VALID_STAGES : List String :=
  ["Applied", "In Review", "OA/Assessment", "Phone Screen",
   "Interview Scheduled", "Interviewed", "Offer", "Rejected", "Withdrawn"]

/-- MIN_CONFIDENCE, ai_parser.py line 78 (0.70 as the exact rational
seven tenths). -/
def MIN_CONFIDENCE : ℚ := ⟨7, 10, by decide, by decide⟩

/-- A decoded AI-response JSON object restricted to the value shapes
the validator handles without raising: each field either absent or a
string (confidence either absent or a JSON number, modelled exactly as
a rational; is_internship either absent or a boolean).  A present null
company, role, stage, notes or date behaves like an absent one in the
code because of the (value or "") coercions, so none also covers
those; a null or non-numeric confidence would raise in float() and is
outside this model. -/
structure AIJson where
  company : Option String
  role : Option String
  stage : Option String
  date : Option String
  notes : Option String
  confidence : Option ℚ
  is_internship : Option Bool
deriving DecidableEq

/-- The record both extractors produce: the company, role, stage,
date, notes, confidence and is_internship keys. -/
structure AIRecord where
  company : String
  role : String
  stage : String
  date : String
  notes : String
  confidence : ℚ
  is_internship : Bool
deriving DecidableEq

/-- re.match(r"\d{4}-\d{2}-\d{2}", s): the prefix test used on the
date field (ai_parser.py line 142). -/
def isIsoDatePrefix (s : String) : Bool :=
  match s.toList with
  | a :: b :: c :: d :: '-' :: e :: f :: '-' :: g :: h :: _ =>
    a.isDigit && b.isDigit && c.isDigit && d.isDigit &&
      e.isDigit && f.isDigit && g.isDigit && h.isDigit
  | _ => false

/-- The validation of a decoded AI-response object, ai_parser.py lines
123-153 (everything _parse_ai_response does after json.loads
succeeds): trim company, role and stage; read confidence with default
0 when the field is absent; reject an empty or unknown company or
role, a stage outside VALID_STAGES, and a confidence below
MIN_CONFIDENCE; otherwise build the record, blanking a date that does
not start with an ISO date. -/
def parse_ai_response_decoded (j : AIJson) : Option AIRecord :=
  if pyStrip (j.company.getD "") == ""
      || strLower (pyStrip (j.company.getD "")) == "unknown" then none
  else if pyStrip (j.role.getD "") == ""
      || strLower (pyStrip (j.role.getD "")) == "unknown" then none
  else if !(VALID_STAGES.contains (pyStrip (j.stage.getD ""))) then none
  else if j.confidence.getD 0 < MIN_CONFIDENCE then none
  else
    some { company := pyStrip (j.company.getD ""),
           role := pyStrip (j.role.getD ""),
           stage := pyStrip (j.stage.getD ""),
           date := if isIsoDatePrefix (j.date.getD "") then j.date.getD "" else "",
           notes := pyStrip (j.notes.getD ""),
           confidence := j.confidence.getD 0,
           is_internship := j.is_internship.getD false }

/-- Acceptance condition on a decoded object as the examined claim
words it (NOT the code): company non-empty after trimming, role
non-empty after trimming, stage one of the nine stage values, and,
when a confidence field is present, at least the 0.70 threshold. -/
def claim_accepts_decoded (j : AIJson) : Bool :=
  pyStrip (j.company.getD "") != "" &&
  pyStrip (j.role.getD "") != "" &&
  VALID_STAGES.contains (pyStrip (j.stage.getD "")) &&
  (match j.confidence with
   | none => true
   | some c => decide (MIN_CONFIDENCE ≤ c))

/-- GEMINI_DAILY_QUOTA_LIMIT, config.py line 30. -/
def GEMINI_DAILY_QUOTA_LIMIT : Nat := 1500

/-- parse_email_with_ai, ai_parser.py lines 161-247, as a function of
the configured API key (config.get_gemini_api_key strips the
environment value), the persisted daily call counter
(database.get_daily_gemini_count) and the email.  The second component
counts calls made to the AI provider.  Control flow of the source: a
blank key returns (error, none) at line 173; a counter at or above
GEMINI_DAILY_QUOTA_LIMIT returns (quota, none) at line 177; otherwise
line 179 reads config.MIN_SECONDS_BETWEEN_CALLS, an attribute that
config.py does not define (it defines the function
get_min_seconds_between_calls instead), so the AttributeError is
caught by the outer handler at line 245 and mapped to (error, none)
before the provider client is ever constructed.  No path performs a
network call. -/
def parse_email_with_ai (geminiApiKeyEnv : String) (dailyGeminiCount : Nat)
    (_e : EmailMsg) : (String × Option AIRecord) × Nat :=
  if pyStrip geminiApiKeyEnv == "" then (("error", none), 0)
  else if GEMINI_DAILY_QUOTA_LIMIT ≤ dailyGeminiCount then (("quota", none), 0)
  else (("error", none), 0)

/-!
## main.py - the per-email pipeline step of run_sync
-/

/-- The fields of the new-application dict run_sync builds
(main.py lines 172-181). -/
structure NewApp where
  company : String
  role : String
  stage : String
  appType : String
  dateApplied : String
  lastUpdated : String
  notes : String
deriving DecidableEq

/-- What run_sync does with one email (database mode), main.py lines
90-196. -/
inductive StepOutcome
  /-- The pre-AI daily-quota check broke the loop (lines 90-93). -/
  | stoppedQuotaBefore
  /-- pre_filter rejected; marked skip-forever (lines 95-103). -/
  | preFilterRejected (reason : String)
  /-- The classifier returned quota status; loop broken (lines 107-109). -/
  | stoppedQuotaAfterAI
  /-- rate_limit_fail or error status; marked retry (lines 111-127). -/
  | markedRetry (status : String)
  /-- success with no record; marked done (lines 129-136). -/
  | markedDoneNoRecord
  /-- Any other status falls through the guard at line 138. -/
  | ignored
  /-- Matched an existing application; updated stage and notes
  (lines 150-170). -/
  | updatedApplication (matched : AppRow) (newStage newNotes : String)
  /-- No match; inserted a new application (lines 171-190). -/
  | newApplication (app : NewApp)
deriving DecidableEq

/-- The per-email trace: which pipeline components run_sync invoked on
this email, and the outcome. -/
structure StepTrace where
  /-- Whether ai_parser.parse_email_with_ai was invoked (main.py
  line 105). -/
  aiInvoked : Bool
  /-- Whether rule_extractor.try_extract was invoked.  run_sync
  contains no call to it: main.py never imports rule_extractor, so
  this is false on every path. -/
  ruleExtractionInvoked : Bool
  outcome : StepOutcome
deriving DecidableEq

/-- Everything run_sync does after the classifier returns, main.py
lines 107-196: route on the status string, then merge a successful
record against the existing applications with
find_matching_application and should_upgrade_stage. -/
def post_ai_outcome (aiResult : String × Option AIRecord)
    (existingApps : List AppRow) (nowDate nowDateTime : String)
    (e : EmailMsg) : StepOutcome :=
  let status := aiResult.1
  if status == "quota" then .stoppedQuotaAfterAI
  else if status == "rate_limit_fail" then .markedRetry status
  else if status == "error" then .markedRetry status
  else
    match aiResult.2 with
    | none => if status == "success" then .markedDoneNoRecord else .ignored
    | some parsed =>
      if status == "success" then
        let dateApplied :=
          if parsed.date != "" then parsed.date
          else if e.date != "" then e.date else nowDate
        let appType := if parsed.is_internship then "Internship" else "Full-time"
        let company := normalize_company parsed.company
        let role := parsed.role
        let stage := parsed.stage
        let notes := parsed.notes
        match find_matching_application company role existingApps with
        | some m =>
          if should_upgrade_stage m.stage stage then
            .updatedApplication m stage notes
          else
            let newNotes :=
              if m.notes != "" then pyStripChars [';', ' '] (m.notes ++ "; " ++ notes)
              else notes
            .updatedApplication m m.stage newNotes
        | none =>
          .newApplication ⟨company, role, stage, appType, dateApplied,
            nowDateTime, notes⟩
      else .ignored

/-- One iteration of the run_sync email loop in database mode, main.py
lines 86-196.  quotaReached is the pre-AI daily-quota check of lines
90-93; aiResult stands for the value parse_email_with_ai returns at
line 105, left as a parameter so the orchestration is modelled for
every possible classifier outcome; nowDate and nowDateTime stand for
the two datetime.utcnow() readings.  The trace records that the AI
classifier is invoked on every email that passes the pre-filter, and
that no rule-extraction call site exists in run_sync. -/
def process_email (quotaReached : Bool) (aiResult : String × Option AIRecord)
    (existingApps : List AppRow) (nowDate nowDateTime : String)
    (e : EmailMsg) : StepTrace :=
  if quotaReached then ⟨false, false, .stoppedQuotaBefore⟩
  else
    match pre_filter e with
    | some reason => ⟨false, false, .preFilterRejected reason⟩
    | none => ⟨true, false, post_ai_outcome aiResult existingApps nowDate nowDateTime e⟩

/-!
## Concrete fixtures
-/

/-- A direct application-response email: passes every pre-filter
check. -/
def acmeEmail : EmailMsg :=
  ⟨"msg-001", "Thank you for applying to Senior Backend Engineer at Acme",
   "careers@acme.com", "2025-03-01", "We received your application."⟩

/-- The existing tracked application of the merge-matching scenario. -/
def googleApp : AppRow :=
  ⟨"Google", "Software Engineer Intern", "Applied", ""⟩

/-- A decoded AI-response object with valid company, role and stage
and no confidence field at all. -/
def aiJsonNoConfidence : AIJson :=
  ⟨some "Stripe", some "Software Engineer", some "Offer",
   some "2025-01-01", some "note", none, some true⟩

/-- The tested inputs of the idempotence property: every alias key and
display name of COMPANY_ALIASES plus representative raw company
strings with legal suffixes, whitespace and punctuation. -/
def TESTED_COMPANY_INPUTS : List String :=
  COMPANY_ALIASES.map (·.1) ++ COMPANY_ALIASES.map (·.2) ++
  ["Google Inc", "google inc", "Meta Platforms, Inc.", "Amazon Web Services LLC",
   "Microsoft Corporation", "Apple Inc.", "Stripe", "stripe", "  Acme  Corp  ",
   "Goldman Sachs & Co", "Datadog, Inc.", "Snowflake Computing Ltd", ""]

/-!
## Claim theorems
-/

/-- C1, counterexample.  The claim states that for every candidate
email passing the pre-filter, run_sync attempts rule-based extraction
before invoking the AI classifier.  This is false: run_sync contains
no call to rule_extractor.try_extract, so on an email that passes the
pre-filter the AI classifier is invoked while rule extraction was
never attempted. -/
theorem C1_counterexample :
    ¬ (∀ (q : Bool) (ai : String × Option AIRecord) (apps : List AppRow)
        (nd ndt : String) (e : EmailMsg),
        pre_filter e = none →
        (process_email q ai apps nd ndt e).aiInvoked = true →
        (process_email q ai apps nd ndt e).ruleExtractionInvoked = true) := by
  intro h
  have h2 := h false ("success", none) [] "" "" acmeEmail (by decide) (by decide)
  exact absurd h2 (by decide)

/-- C1, amended: run_sync performs no rule-based extraction at all
(rule_extractor.try_extract has no call site in main.py); for every
candidate email that passes the pre-filter, when the daily-quota
pre-check has not fired, the AI classifier is invoked directly. -/
theorem C1_amended_ai_invoked_directly
    (ai : String × Option AIRecord) (apps : List AppRow)
    (nd ndt : String) (e : EmailMsg) (h : pre_filter e = none) :
    (process_email false ai apps nd ndt e).aiInvoked = true ∧
    (process_email false ai apps nd ndt e).ruleExtractionInvoked = false := by
  simp [process_email, h]

/-- C1, witness for the amended theorem at a concrete passing email. -/
theorem C1_witness :
    (process_email false ("success", none) [] "" "" acmeEmail).aiInvoked = true ∧
    (process_email false ("success", none) [] "" "" acmeEmail).ruleExtractionInvoked
      = false :=
  C1_amended_ai_invoked_directly ("success", none) [] "" "" acmeEmail (by decide)

/-- C2, counterexample.  The claim states that with current stage
Offer, should_upgrade_stage returns false for every incoming stage
other than Withdrawn.  This is false: the terminal-stage check runs
first, so should_upgrade_stage "Offer" "Rejected" is true. -/
theorem C2_counterexample :
    ¬ ((∀ i : Stage, i ≠ Stage.withdrawn →
          should_upgrade_stage "Offer" i.name = false) ∧
        should_upgrade_stage "Offer" Stage.withdrawn.name = true) := by
  decide

/-- C2, amended: with current stage Offer, should_upgrade_stage
returns true exactly for the incoming stages Rejected and Withdrawn
and false for every other incoming stage. -/
theorem C2_amended_offer_overwritten_only_by_terminal (i : Stage) :
    should_upgrade_stage "Offer" i.name =
      (decide (i = Stage.rejected) || decide (i = Stage.withdrawn)) := by
  revert i; decide

/-- C3: for every current stage, an incoming Rejected or Withdrawn
always applies, even when the current stage is a later non-terminal
stage such as Offer. -/
theorem C3_terminal_always_wins (c : Stage) :
    should_upgrade_stage c.name "Rejected" = true ∧
    should_upgrade_stage c.name "Withdrawn" = true := by
  revert c; decide

/-- C4: on non-terminal stage pairs, should_upgrade_stage holds
exactly when the ordinal priority of the incoming stage strictly
exceeds that of the current stage. -/
theorem C4_nonterminal_strict_progress (c i : Stage)
    (hc : c.nonTerminal = true) (hi : i.nonTerminal = true) :
    should_upgrade_stage c.name i.name =
      decide (stage_priority c.name < stage_priority i.name) := by
  revert c i; decide

/-- C4, witness at the concrete non-terminal pair (Applied, Offer). -/
theorem C4_witness :
    should_upgrade_stage Stage.applied.name Stage.offer.name =
      decide (stage_priority Stage.applied.name < stage_priority Stage.offer.name) :=
  C4_nonterminal_strict_progress Stage.applied Stage.offer (by decide) (by decide)

/-- C5: the new record (company "google inc", role "Software
Engineering Intern") matches the existing application (company
"Google", role "Software Engineer Intern"): the normalized company
keys are exactly equal and the normalized role keys are exactly equal
(so in particular equal or with token overlap at least 0.75), hence
find_matching_application returns the existing application and no
duplicate entry is created. -/
theorem C5_merge_matches_google :
    find_matching_application "google inc" "Software Engineering Intern" [googleApp]
        = some googleApp ∧
    normalize_company_for_match "google inc" = normalize_company_for_match "Google" ∧
    (normalize_role_for_match "Software Engineering Intern"
        = normalize_role_for_match "Software Engineer Intern" ∨
      ROLE_MATCH_THRESHOLD ≤ role_token_overlap "Software Engineering Intern"
        "Software Engineer Intern") :=
  ⟨by decide, by decide, Or.inl (by decide)⟩

/-- C6, counterexample.  The claim states a decoded object is accepted
if and only if company and role are non-empty after trimming, the
stage is one of the nine values, and a present confidence meets the
threshold.  This is false: on an object with no confidence field at
all the code reads confidence as 0, which is below the threshold, and
returns None although the claim accepts it. -/
theorem C6_counterexample :
    claim_accepts_decoded aiJsonNoConfidence = true ∧
    parse_ai_response_decoded aiJsonNoConfidence = none :=
  ⟨by decide, by decide⟩

/-- C6, amended: a decoded object is accepted if and only if company
and role are non-empty after trimming and not case-insensitively equal
to unknown, the stage is one of the nine values, and the confidence
value, read as 0 whenever the field is absent, is at least the 0.70
threshold; every validation failure yields None. -/
theorem C6_amended_validation_iff (j : AIJson) :
    parse_ai_response_decoded j ≠ none ↔
      (pyStrip (j.company.getD "") ≠ "" ∧
       strLower (pyStrip (j.company.getD "")) ≠ "unknown" ∧
       pyStrip (j.role.getD "") ≠ "" ∧
       strLower (pyStrip (j.role.getD "")) ≠ "unknown" ∧
       VALID_STAGES.contains (pyStrip (j.stage.getD "")) = true ∧
       MIN_CONFIDENCE ≤ j.confidence.getD 0) := by
  unfold parse_ai_response_decoded
  split_ifs with h1 h2 h3 h4 <;>
    simp_all [Bool.or_eq_true, beq_iff_eq, not_or, not_lt, not_le] <;>
    tauto

/-- C7: with a configured (non-blank) API key, whenever the persisted
daily call counter is at or above GEMINI_DAILY_QUOTA_LIMIT,
parse_email_with_ai returns the pair (quota, none) and performs zero
network calls to the AI provider. -/
theorem C7_quota_hard_stop (key : String) (count : Nat) (e : EmailMsg)
    (hkey : pyStrip key ≠ "") (hcount : GEMINI_DAILY_QUOTA_LIMIT ≤ count) :
    parse_email_with_ai key count e = (("quota", none), 0) := by
  simp [parse_email_with_ai, hkey, hcount]

/-- C7, witness at a concrete key and a counter exactly at the
limit. -/
theorem C7_witness :
    parse_email_with_ai "some-key" 1500 acmeEmail = (("quota", none), 0) :=
  C7_quota_hard_stop "some-key" 1500 acmeEmail (by decide) (by decide)

/-- C8: for every email with no hard-reject subject phrase, whose
sender domain is neither personal nor always-rejected, and that fires
no job-board blast rule, the pre-filter passes (returns none) if and
only if the subject contains a must-pass keyword or the sender domain
matches a known ATS domain, and every rejection it returns is a
non-empty reason string. -/
theorem C8_prefilter_keyword_gate (e : EmailMsg)
    (h1 : hardRejectHit e = none)
    (h2 : PERSONAL_DOMAINS.contains (pfDomain e) = false)
    (h3 : ALWAYS_REJECT_DOMAINS.contains (pfDomain e) = false)
    (h4 : blastHit e = none) :
    (pre_filter e = none ↔ (subject_passes e || domain_is_ats e) = true) ∧
    (∀ r, pre_filter e = some r → r ≠ "") := by
  unfold pre_filter
  rw [h1, h4]
  simp only [h2, h3, Bool.false_eq_true, if_false]
  cases hsp : subject_passes e <;> cases hats : domain_is_ats e <;>
    simp_all

/-- C8, witness: the concrete application-response email satisfies the
hypotheses and passes the pre-filter via the must-pass keyword arm. -/
theorem C8_witness : pre_filter acmeEmail = none :=
  ((C8_prefilter_keyword_gate acmeEmail (by decide) (by decide) (by decide)
      (by decide)).1).mpr (by decide)

/-- C9, counterexample.  The claim states normalize_company is
idempotent on every input string.  This is false: on "a LL Co.C" the
Co suffix pattern consumes the dot and glues the surrounding
characters into "a LLC", which title-cases to "A Llc"; a second
application then strips Llc as an LLC suffix, giving "A". -/
theorem C9_counterexample :
    ¬ (∀ x : String, normalize_company (normalize_company x) = normalize_company x) :=
  fun h => absurd (h "a LL Co.C") (by decide)

set_option maxRecDepth 100000 in
/-- C9, amended: normalize_company is idempotent on the tested inputs
(every alias key and display name plus representative suffixed company
strings), though not on every string. -/
theorem C9_amended_idempotent_on_tested :
    (TESTED_COMPANY_INPUTS.all fun x =>
      normalize_company (normalize_company x) == normalize_company x) = true := by
  decide

/-- C10: the rule extractor resolves stages to one of only five
values - Rejected, Offer, Interview Scheduled, OA/Assessment or
Applied - so rule-based extraction never yields Phone Screen,
In Review, Interviewed or Withdrawn. -/
theorem C10_stage_from_text_range (t : String) :
    stage_from_text t = "Rejected" ∨ stage_from_text t = "Offer" ∨
    stage_from_text t = "Interview Scheduled" ∨
    stage_from_text t = "OA/Assessment" ∨ stage_from_text t = "Applied" := by
  unfold stage_from_text
  split_ifs <;> simp
